import Mathlib

/-!
# Verification of the books_app specification

A shallow embedding of the `books_app` Flask application (book catalog with
signup/login, book/author/genre CRUD and per-user favorites).  The repository
ships `books_app/__init__.py` and the two test suites; the route handlers,
forms and ORM models (`books_app/models.py`, `books_app/main/routes.py`,
`books_app/auth/routes.py`) are not part of the provided sources, so those
components are modelled from the specification, as marked on each definition.
-/

namespace BooksApp

/-- The `Audience` enumeration of `books_app.models`
(`CHILDREN`, `YOUNG_ADULT`, `ADULT`). -/
inductive Audience where
  | CHILDREN
  | YOUNG_ADULT
  | ADULT
deriving DecidableEq, Repr

/-- A calendar date (`datetime.date`), as stored in `Book.publish_date`. -/
structure Date where
  year : Nat
  month : Nat
  day : Nat
deriving DecidableEq, Repr

/-- Modelled from the spec: Author entity
`{id, name: string, biography: optional string}`. -/
structure Author where
  id : Nat
  name : String
  biography : Option String
deriving DecidableEq, Repr

/-- Modelled from the spec: Genre entity `{id, name: unique string}`. -/
structure Genre where
  id : Nat
  name : String
deriving DecidableEq, Repr

/-- Modelled from the spec: Book entity `{id, title, publish_date: optional
date, author: reference to exactly one Author (nullable until assigned),
genres: set of Genre references, audience}`. -/
structure Book where
  id : Nat
  title : String
  publish_date : Option Date
  author : Option Nat
  genres : List Nat
  audience : Audience
deriving DecidableEq, Repr

/-- Modelled from the spec: User entity `{id, username: unique string,
password: hashed secret, favorite_books: set of Book references}`. -/
structure User where
  id : Nat
  username : String
  password : String
  favorite_books : List Nat
deriving DecidableEq, Repr

/-- The persistent store: one table per entity, plus the auto-increment
counters the relational store keeps for primary keys. -/
structure AppState where
  users : List User
  books : List Book
  authors : List Author
  genres : List Genre
  nextUserId : Nat
  nextBookId : Nat
  nextAuthorId : Nat
  nextGenreId : Nat
deriving DecidableEq, Repr

/-! ## Credential Service

Modelled from the spec (the service is `flask_bcrypt` configured in
`books_app/__init__.py`; the call sites live in the absent
`books_app/auth/routes.py`): `hash(plaintext) -> hashed` is a one-way
transform with a per-call random salt, and `verify(plaintext, hashed)` is
true iff the plaintext matches the one originally hashed, returning false
(not throwing) on mismatch.  The salt is abstracted to a `Nat` nonce encoded
injectively into the stored string; the stored string carries the bcrypt
`$2b$12$` prefix so that it is never equal to the plaintext. -/

/-- Modelled from the spec: `bcrypt.generate_password_hash` — produces a
salted stored string `"$2b$12$" ++ salt ++ "$" ++ payload` for the given
plaintext.  The payload after the salt marker determines the plaintext that
verifies, mirroring bcrypt's property that the hash determines which
plaintext checks. -/
def generate_password_hash (salt : Nat) (plaintext : String) : String :=
  String.mk ('$' :: '2' :: 'b' :: '$' :: '1' :: '2' :: '$' ::
    (List.replicate salt '0' ++ '$' :: plaintext.toList))

/-- Modelled from the spec: `bcrypt.check_password_hash hashed plaintext` —
re-derives the salt from the stored string and checks whether `plaintext`
is the one originally hashed; total, returns `false` on mismatch. -/
def check_password_hash (hashed plaintext : String) : Bool :=
  match hashed.toList with
  | '$' :: '2' :: 'b' :: '$' :: '1' :: '2' :: '$' :: rest =>
    match rest.dropWhile (fun c => c ≠ '$') with
    | '$' :: tail => String.mk tail == plaintext
    | _ => false
  | _ => false

/-! ## Session / Identity Manager -/

/-- The identity state of a session: `Anonymous` or `Authenticated(user)`
(spec §4.2 state machine); `flask_login` keeps the current user id in the
signed session cookie. -/
inductive Identity where
  | anonymous
  | authenticated (uid : Nat)
deriving DecidableEq, Repr

/-- The error taxonomy of the signup/login handlers (spec §4.4/§7). -/
inductive AuthError where
  | duplicateUsername
  | userNotFound
  | incorrectPassword
deriving DecidableEq, Repr

/-- The user-visible message each auth error is surfaced as (spec §4.4). -/
def AuthError.message : AuthError → String
  | .duplicateUsername => "that username is taken"
  | .userNotFound => "User does not exist"
  | .incorrectPassword => "Password incorrect"

/-- The error taxonomy of the CRUD/favorites handlers (spec §7). -/
inductive MainError where
  | notFound
  | referenceNotFound
  | invalidEnum
deriving DecidableEq, Repr

def findUserByName (s : AppState) (username : String) : Option User :=
  s.users.find? (fun u => u.username == username)

def findUserById (s : AppState) (uid : Nat) : Option User :=
  s.users.find? (fun u => u.id == uid)

/-- Modelled from the spec: `load_user`-based resolution at the start of each
request — `Authenticated(u)` falls back to `Anonymous` when the persisted
user id no longer resolves (spec §4.2). -/
def resolveIdentity (s : AppState) : Identity → Identity
  | .anonymous => .anonymous
  | .authenticated uid =>
    match findUserById s uid with
    | some _ => .authenticated uid
    | none => .anonymous

/-! ## URL percent-encoding

`flask_login` encodes the originally requested path into the `next` query
parameter of the login redirect; paths here are ASCII. -/

def hexDigit (n : Nat) : Char :=
  if n < 10 then Char.ofNat ('0'.toNat + n) else Char.ofNat ('A'.toNat + (n - 10))

def percentEncodeChar (c : Char) : List Char :=
  if c.isAlphanum || c = '-' || c = '_' || c = '.' || c = '~' then [c]
  else ['%', hexDigit (c.toNat / 16), hexDigit (c.toNat % 16)]

def urlEncode (s : String) : String :=
  String.mk (s.toList.map percentEncodeChar).flatten

/-! ## Auth operations (modelled from the spec, §4.4) -/

/-- Modelled from the spec: the signup handler of the absent
`books_app/auth/routes.py` — fails with `DuplicateUsernameError` when the
username already exists (case-sensitive exact match); otherwise hashes the
password via the Credential Service and inserts the new `User`. -/
def signup (s : AppState) (username password : String) (salt : Nat) :
    Except AuthError AppState :=
  if (findUserByName s username).isSome then .error .duplicateUsername
  else .ok { s with
    users := s.users ++
      [⟨s.nextUserId, username, generate_password_hash salt password, []⟩],
    nextUserId := s.nextUserId + 1 }

/-- Modelled from the spec: the login check of the absent
`books_app/auth/routes.py` — `UserNotFoundError` when no user has the given
username, `IncorrectPasswordError` when `verify` returns false, otherwise
the id of the user to authenticate as. -/
def login (s : AppState) (username password : String) : Except AuthError Nat :=
  match findUserByName s username with
  | none => .error .userNotFound
  | some u =>
    if check_password_hash u.password password then .ok u.id
    else .error .incorrectPassword

/-! ## CRUD and favorites operations (modelled from the spec, §4.5/§4.6) -/

/-- The validated payload of the book creation/edit form. -/
structure BookForm where
  title : String
  publish_date : Option Date
  author : Nat
  audience : Audience
  genres : List Nat
deriving DecidableEq, Repr

/-- Modelled from the spec: Create Book — `author` must resolve to an
existing Author or the operation fails with `ReferenceNotFoundError`; on
success persists a new Book. -/
def createBook (s : AppState) (f : BookForm) : Except MainError AppState :=
  if s.authors.any (fun a => a.id == f.author) then
    .ok { s with
      books := s.books ++
        [⟨s.nextBookId, f.title, f.publish_date, some f.author, f.genres, f.audience⟩],
      nextBookId := s.nextBookId + 1 }
  else .error .referenceNotFound

/-- The per-book update the edit form performs on the targeted book:
all mutable fields are replaced, the id is untouched. -/
def bookUpd (f : BookForm) (bid : Nat) (b : Book) : Book :=
  if b.id == bid then
    { b with
      title := f.title
      publish_date := f.publish_date
      author := some f.author
      genres := f.genres
      audience := f.audience }
  else b

/-- Modelled from the spec: Update Book — the id must resolve to an existing
Book or the operation fails with `NotFoundError`; replaces all mutable
fields atomically. -/
def updateBook (s : AppState) (bid : Nat) (f : BookForm) :
    Except MainError AppState :=
  if s.books.any (fun b => b.id == bid) then
    .ok { s with books := s.books.map (bookUpd f bid) }
  else .error .notFound

/-- Modelled from the spec: Create Author — no uniqueness constraint. -/
def createAuthor (s : AppState) (name : String) (bio : Option String) : AppState :=
  { s with
    authors := s.authors ++ [⟨s.nextAuthorId, name, bio⟩],
    nextAuthorId := s.nextAuthorId + 1 }

/-- Modelled from the spec: Create Genre — uniqueness not strictly enforced. -/
def createGenre (s : AppState) (name : String) : AppState :=
  { s with
    genres := s.genres ++ [⟨s.nextGenreId, name⟩],
    nextGenreId := s.nextGenreId + 1 }

/-- The per-user update favoriting performs: insert the book id into the
targeted user's favorites unless it is already present. -/
def favUpd (uid bid : Nat) (u : User) : User :=
  if u.id == uid then
    (if u.favorite_books.contains bid then u
     else { u with favorite_books := u.favorite_books ++ [bid] })
  else u

/-- The per-user update unfavoriting performs: drop the book id from the
targeted user's favorites. -/
def unfavUpd (uid bid : Nat) (u : User) : User :=
  if u.id == uid then
    { u with favorite_books := u.favorite_books.filter (fun b => b ≠ bid) }
  else u

/-- Modelled from the spec: Favorite — the book id must resolve to an
existing Book or fails with `NotFoundError`; adds the book to the current
user's `favorite_books`; adding an already-favorited book is a no-op. -/
def favoriteBook (s : AppState) (uid bid : Nat) : Except MainError AppState :=
  if s.books.any (fun b => b.id == bid) then
    .ok { s with users := s.users.map (favUpd uid bid) }
  else .error .notFound

/-- Modelled from the spec: Unfavorite — removes the book from the current
user's `favorite_books`; removing a book not currently favorited is a no-op
(idempotent, no error). -/
def unfavoriteBook (s : AppState) (uid bid : Nat) : AppState :=
  { s with users := s.users.map (unfavUpd uid bid) }

/-! ## HTTP surface (modelled from the spec, §6) -/

/-- The requests of the HTTP surface table (spec §6).  `postLogin` carries
the optional `?next=<path>` redirect target; `postSignup` carries the salt
the Credential Service draws for the call. -/
inductive Request where
  | getHome
  | getBookDetail (bid : Nat)
  | getCreateBook
  | postCreateBook (f : BookForm)
  | postUpdateBook (bid : Nat) (f : BookForm)
  | getCreateAuthor
  | postCreateAuthor (name : String) (bio : Option String)
  | getCreateGenre
  | postCreateGenre (name : String)
  | getProfile (username : String)
  | postFavorite (bid : Nat)
  | postUnfavorite (bid : Nat)
  | postSignup (username password : String) (salt : Nat)
  | postLogin (username password : String) (next : Option String)
  | getLogout
deriving DecidableEq, Repr

/-- The path of each request, as in the spec §6 table. -/
def Request.path : Request → String
  | .getHome => "/"
  | .getBookDetail bid => "/book/" ++ toString bid
  | .getCreateBook => "/create_book"
  | .postCreateBook _ => "/create_book"
  | .postUpdateBook bid _ => "/book/" ++ toString bid
  | .getCreateAuthor => "/create_author"
  | .postCreateAuthor _ _ => "/create_author"
  | .getCreateGenre => "/create_genre"
  | .postCreateGenre _ => "/create_genre"
  | .getProfile name => "/profile/" ++ name
  | .postFavorite bid => "/favorite/" ++ toString bid
  | .postUnfavorite bid => "/unfavorite/" ++ toString bid
  | .postSignup _ _ _ => "/signup"
  | .postLogin _ _ _ => "/login"
  | .getLogout => "/logout"

/-- Whether the Access-Control Guard applies (spec §4.3): book creation,
book editing, author creation, genre creation, favoriting, unfavoriting —
not the homepage, book detail, profile, signup, login or logout. -/
def Request.guarded : Request → Bool
  | .getCreateBook => true
  | .postCreateBook _ => true
  | .postUpdateBook _ _ => true
  | .getCreateAuthor => true
  | .postCreateAuthor _ _ => true
  | .getCreateGenre => true
  | .postCreateGenre _ => true
  | .postFavorite _ => true
  | .postUnfavorite _ => true
  | _ => false

/-- A handler's HTTP result: a redirect with a status code and Location, or
a rendered page (HTTP 200), optionally carrying an inline error message
(spec §7). -/
inductive Response where
  | redirect (status : Nat) (location : String)
  | page (errorMsg : Option String)
deriving DecidableEq, Repr

/-- The triple a request produces: the new store, the new session identity
and the HTTP response. -/
structure Outcome where
  state : AppState
  ident : Identity
  response : Response
deriving DecidableEq, Repr

/-- Modelled from the spec: the guard's redirect to the login entry point
with the original path encoded into `next` (spec §4.3/§6). -/
def loginRedirect (path : String) : Response :=
  .redirect 302 ("/login?next=" ++ urlEncode path)

/-- Modelled from the spec: the unguarded handler bodies (the dispatch of
the absent `books_app/main/routes.py` and `books_app/auth/routes.py`).
Guarded requests are assumed to have passed the guard, so favorites read
the authenticated uid from the identity. -/
def handleCore (s : AppState) (ident : Identity) : Request → Outcome
  | .getHome => ⟨s, ident, .page none⟩
  | .getBookDetail _ => ⟨s, ident, .page none⟩
  | .getCreateBook => ⟨s, ident, .page none⟩
  | .postCreateBook f =>
    match createBook s f with
    | .error _ => ⟨s, ident, .page (some "error")⟩
    | .ok s' => ⟨s', ident, .redirect 302 ("/book/" ++ toString s.nextBookId)⟩
  | .postUpdateBook bid f =>
    match updateBook s bid f with
    | .error _ => ⟨s, ident, .page (some "error")⟩
    | .ok s' => ⟨s', ident, .redirect 302 ("/book/" ++ toString bid)⟩
  | .getCreateAuthor => ⟨s, ident, .page none⟩
  | .postCreateAuthor name bio => ⟨createAuthor s name bio, ident, .page none⟩
  | .getCreateGenre => ⟨s, ident, .page none⟩
  | .postCreateGenre name => ⟨createGenre s name, ident, .page none⟩
  | .getProfile _ => ⟨s, ident, .page none⟩
  | .postFavorite bid =>
    match ident with
    | .authenticated uid =>
      match favoriteBook s uid bid with
      | .error _ => ⟨s, ident, .page (some "error")⟩
      | .ok s' => ⟨s', ident, .redirect 302 ("/book/" ++ toString bid)⟩
    | .anonymous => ⟨s, ident, loginRedirect ("/favorite/" ++ toString bid)⟩
  | .postUnfavorite bid =>
    match ident with
    | .authenticated uid =>
      ⟨unfavoriteBook s uid bid, ident, .redirect 302 ("/book/" ++ toString bid)⟩
    | .anonymous => ⟨s, ident, loginRedirect ("/unfavorite/" ++ toString bid)⟩
  | .postSignup username password salt =>
    match signup s username password salt with
    | .error e => ⟨s, ident, .page (some e.message)⟩
    | .ok s' => ⟨s', ident, .redirect 302 "/login"⟩
  | .postLogin username password next =>
    match login s username password with
    | .error e => ⟨s, ident, .page (some e.message)⟩
    | .ok uid => ⟨s, .authenticated uid, .redirect 302 (next.getD "/")⟩
  | .getLogout => ⟨s, .anonymous, .redirect 302 "/"⟩

/-- Modelled from the spec: one request against the application — the guard
refuses guarded requests from an Anonymous identity with the login
redirect, leaving store and identity untouched; otherwise the wrapped
handler proceeds unchanged (spec §4.3). -/
def handleRequest (s : AppState) (ident : Identity) (r : Request) : Outcome :=
  match ident, r.guarded with
  | .anonymous, true => ⟨s, .anonymous, loginRedirect r.path⟩
  | _, _ => handleCore s ident r

/-- Modelled from the spec: a full request cycle — the session identity is
first re-resolved through the user loader (spec §4.2), then the request is
dispatched through the guard. -/
def step (s : AppState) (ident : Identity) (r : Request) : Outcome :=
  handleRequest s (resolveIdentity s ident) r

/-! ## The user loader (`books_app/__init__.py`, lines 24–26)

`load_user(user_id)` is `User.query.get(int(user_id))`: Python's `int()`
raises `ValueError` unless the string is (whitespace-padded, optionally
signed) decimal digits, and `Query.get` returns `None` when no row has the
given primary key. -/

/-- Numeric value of a list of decimal digit characters. -/
def digitsToNat (ds : List Char) : Nat :=
  ds.foldl (fun acc c => 10 * acc + (c.toNat - '0'.toNat)) 0

/-- Python's `int(str)` on a string: strips surrounding whitespace, accepts
an optional single sign followed by one or more decimal digits, and is
`none` (a raised `ValueError`) otherwise. -/
def pyInt? (str : String) : Option Int :=
  let stripped :=
    ((str.toList.dropWhile Char.isWhitespace).reverse.dropWhile
      Char.isWhitespace).reverse
  match stripped with
  | '-' :: ds =>
    if !ds.isEmpty && ds.all Char.isDigit then some (-(digitsToNat ds : Int))
    else none
  | '+' :: ds =>
    if !ds.isEmpty && ds.all Char.isDigit then some (digitsToNat ds : Int)
    else none
  | ds =>
    if !ds.isEmpty && ds.all Char.isDigit then some (digitsToNat ds : Int)
    else none

/-- `load_user` of `books_app/__init__.py`: `User.query.get(int(user_id))`.
`int()` raising on a non-integer string is the `.error` case; a primary-key
miss is `.ok none`. -/
def load_user (s : AppState) (user_id : String) : Except String (Option User) :=
  match pyInt? user_id with
  | none => .error "ValueError"
  | some n => .ok (if n < 0 then none else findUserById s n.toNat)

/-! ## Session cookie signing (`books_app/__init__.py`, line 10)

`app.secret_key = os.urandom(24)` draws a fresh signing secret at every
process start.  The cookie signing itself is Flask/itsdangerous: modelled
from the spec ("cookie-backed, server-validated" sessions, §4.2) as a MAC
over the stored user id, injective in the secret. -/

/-- A client-held session cookie: the stored user id and its signature. -/
structure SessionCookie where
  uid : Nat
  mac : Nat
deriving DecidableEq, Repr

/-- Modelled from the spec: the server's signature over the session payload
under the process's `secret_key`. -/
def signSession (secret uid : Nat) : Nat := Nat.pair secret uid

/-- Modelled from the spec: the cookie the server issues when a session
becomes Authenticated(uid). -/
def issueCookie (secret uid : Nat) : SessionCookie :=
  ⟨uid, signSession secret uid⟩

/-- Modelled from the spec: server-side validation of an incoming cookie —
a bad signature means the session is Anonymous. -/
def readCookie (secret : Nat) (c : SessionCookie) : Identity :=
  if c.mac == signSession secret c.uid then .authenticated c.uid
  else .anonymous

/-! ## Concrete fixtures used by the closed-instance theorems -/

/-- A fresh store, as after `db.create_all()` on an empty database. -/
def emptyState : AppState := ⟨[], [], [], [], 1, 1, 1, 1⟩

/-- The fixture user of `create_user` in the test suites: username `me1`,
password the bcrypt hash of `"password"`. -/
def me1 : User := ⟨1, "me1", generate_password_hash 0 "password", []⟩

/-- A store holding just the fixture user `me1`. -/
def stateMe1 : AppState := ⟨[me1], [], [], [], 2, 1, 1, 1⟩

/-- The fixture author of `create_books` ("Harper Lee"). -/
def author1 : Author := ⟨1, "Harper Lee", none⟩

/-- The fixture book id 1 of `create_books` ("To Kill a Mockingbird"). -/
def book1 : Book :=
  ⟨1, "To Kill a Mockingbird", some ⟨1960, 7, 11⟩, some 1, [], .ADULT⟩

/-- A store holding the fixture user, book and author. -/
def favState : AppState := ⟨[me1], [book1], [author1], [], 2, 2, 2, 1⟩

/-- The edit payload of `test_update_book`. -/
def updateForm : BookForm :=
  ⟨"Tequila Mockingbird", some ⟨1960, 7, 12⟩, 1, .CHILDREN, []⟩

/-- The Data-Model invariant of spec §3: every stored password is a
Credential-Service hash (in particular not a submitted plaintext). -/
def PasswordsHashed (users : List User) : Prop :=
  ∀ u ∈ users, ∃ salt p0, u.password = generate_password_hash salt p0

/-! ## Auxiliary lemmas -/

lemma dropWhile_replicate_marker (n : Nat) (t : List Char) :
    (List.replicate n '0' ++ '$' :: t).dropWhile (fun c => c ≠ '$')
      = '$' :: t := by
  induction n with
  | zero => simp [List.dropWhile]
  | succ k ih =>
    simp [List.replicate_succ, List.dropWhile_cons, ih]

/-- Round trip of the credential service: checking a generated hash against
a candidate plaintext succeeds exactly when the candidate is the plaintext
originally hashed. -/
lemma check_generate (salt : Nat) (p q : String) :
    check_password_hash (generate_password_hash salt p) q = true ↔ q = p := by
  unfold check_password_hash generate_password_hash
  simp only [String.toList, dropWhile_replicate_marker]
  constructor
  · intro h
    have : String.mk p.data = q := by
      simpa using h
    cases p
    simpa using this.symm
  · intro h
    subst h
    cases q
    simp

/-- A generated hash is never the plaintext it was generated from: the
stored string is strictly longer. -/
lemma generate_ne_plaintext (salt : Nat) (p : String) :
    generate_password_hash salt p ≠ p := by
  intro h
  have hlen : (generate_password_hash salt p).length = p.length := by
    rw [h]
  unfold generate_password_hash at hlen
  rw [String.length_mk] at hlen
  simp only [List.length_cons, List.length_append, List.length_replicate] at hlen
  have hd : p.toList.length = p.length := rfl
  omega

/-- Every handler except login and logout leaves the session identity
unchanged. -/
lemma handleCore_ident_fixed (s : AppState) (ident : Identity) (r : Request)
    (hl : ∀ v q nx, r ≠ .postLogin v q nx) (ho : r ≠ .getLogout) :
    (handleCore s ident r).ident = ident := by
  cases r
  case postCreateBook f =>
    cases h : createBook s f <;> simp [handleCore, h]
  case postUpdateBook bid f =>
    cases h : updateBook s bid f <;> simp [handleCore, h]
  case postFavorite bid =>
    cases ident with
    | anonymous => simp [handleCore]
    | authenticated uid =>
      cases h : favoriteBook s uid bid <;> simp [handleCore, h]
  case postUnfavorite bid =>
    cases ident <;> simp [handleCore]
  case postSignup u p salt =>
    cases h : signup s u p salt <;> simp [handleCore, h]
  case postLogin u p nx => exact absurd rfl (hl u p nx)
  case getLogout => exact absurd rfl ho
  all_goals simp [handleCore]

lemma favoriteBook_eq_map (s : AppState) (uid bid : Nat)
    (hb : s.books.any (fun b => b.id == bid) = true) :
    favoriteBook s uid bid =
      .ok { s with users := s.users.map (favUpd uid bid) } := by
  unfold favoriteBook
  rw [hb]
  rfl

lemma favUpd_idem (uid bid : Nat) (u : User) :
    favUpd uid bid (favUpd uid bid u) = favUpd uid bid u := by
  unfold favUpd
  by_cases hid : u.id == uid
  · rw [if_pos hid]
    by_cases hc : u.favorite_books.contains bid
    · rw [if_pos hc, if_pos hid, if_pos hc]
    · rw [if_neg hc, if_pos hid]
      have : ({ u with favorite_books := u.favorite_books ++ [bid] } :
          User).favorite_books.contains bid = true := by
        simp
      rw [if_pos this]
  · rw [if_neg hid, if_neg hid]

lemma updateBook_eq_map (s : AppState) (bid : Nat) (f : BookForm)
    (hb : s.books.any (fun b => b.id == bid) = true) :
    updateBook s bid f =
      .ok { s with books := s.books.map (bookUpd f bid) } := by
  unfold updateBook
  rw [hb]
  rfl

lemma passwordsHashed_map (l : List User) (f : User → User)
    (hf : ∀ u, (f u).password = u.password) (hl : PasswordsHashed l) :
    PasswordsHashed (l.map f) := by
  intro u' hu'
  obtain ⟨u, hu, rfl⟩ := List.mem_map.mp hu'
  obtain ⟨a, b, hp⟩ := hl u hu
  exact ⟨a, b, (hf u).trans hp⟩

lemma favUpd_password (uid bid : Nat) (u : User) :
    (favUpd uid bid u).password = u.password := by
  unfold favUpd
  by_cases h1 : u.id == uid
  · rw [if_pos h1]
    by_cases h2 : u.favorite_books.contains bid
    · rw [if_pos h2]
    · rw [if_neg h2]
  · rw [if_neg h1]

lemma unfavUpd_password (uid bid : Nat) (u : User) :
    (unfavUpd uid bid u).password = u.password := by
  unfold unfavUpd
  by_cases h1 : u.id == uid
  · rw [if_pos h1]
  · rw [if_neg h1]

lemma handleCore_preserves_hashed (t : AppState) (ident : Identity)
    (r : Request) (ht : PasswordsHashed t.users) :
    PasswordsHashed (handleCore t ident r).state.users := by
  cases r
  case postCreateBook f =>
    cases h : createBook t f with
    | error e => simpa [handleCore, h] using ht
    | ok s' =>
      have husers : s'.users = t.users := by
        unfold createBook at h
        split at h
        · injection h with h2
          rw [← h2]
        · simp at h
      simp only [handleCore, h]
      rw [husers]
      exact ht
  case postUpdateBook bid f =>
    cases h : updateBook t bid f with
    | error e => simpa [handleCore, h] using ht
    | ok s' =>
      have husers : s'.users = t.users := by
        unfold updateBook at h
        split at h
        · injection h with h2
          rw [← h2]
        · simp at h
      simp only [handleCore, h]
      rw [husers]
      exact ht
  case postCreateAuthor name bio =>
    simpa [handleCore, createAuthor] using ht
  case postCreateGenre name =>
    simpa [handleCore, createGenre] using ht
  case postFavorite bid =>
    cases ident with
    | anonymous => simpa [handleCore] using ht
    | authenticated uid =>
      cases h : favoriteBook t uid bid with
      | error e => simpa [handleCore, h] using ht
      | ok s' =>
        have husers : s'.users = t.users.map (favUpd uid bid) := by
          unfold favoriteBook at h
          split at h
          · injection h with h2
            rw [← h2]
          · simp at h
        simp only [handleCore, h]
        rw [husers]
        exact passwordsHashed_map _ _ (favUpd_password uid bid) ht
  case postUnfavorite bid =>
    cases ident with
    | anonymous => simpa [handleCore] using ht
    | authenticated uid =>
      simp only [handleCore, unfavoriteBook]
      exact passwordsHashed_map _ _ (unfavUpd_password uid bid) ht
  case postSignup u p salt =>
    cases h : signup t u p salt with
    | error e => simpa [handleCore, h] using ht
    | ok s' =>
      have husers : s'.users =
          t.users ++ [⟨t.nextUserId, u, generate_password_hash salt p, []⟩] := by
        unfold signup at h
        split at h
        · simp at h
        · injection h with h2
          rw [← h2]
      simp only [handleCore, h]
      rw [husers]
      intro u' hu'
      rcases List.mem_append.mp hu' with hold | hnew
      · exact ht u' hold
      · have : u' = ⟨t.nextUserId, u, generate_password_hash salt p, []⟩ := by
          simpa using hnew
        exact ⟨salt, p, by rw [this]⟩
  case postLogin u p nx =>
    cases h : login t u p with
    | error e => simpa [handleCore, h] using ht
    | ok uid => simpa [handleCore, h] using ht
  all_goals simpa [handleCore] using ht

lemma handleRequest_preserves_hashed (t : AppState) (ident : Identity)
    (r : Request) (ht : PasswordsHashed t.users) :
    PasswordsHashed (handleRequest t ident r).state.users := by
  cases ident with
  | authenticated uid =>
    have hreq : handleRequest t (.authenticated uid) r =
        handleCore t (.authenticated uid) r := rfl
    rw [hreq]
    exact handleCore_preserves_hashed t _ r ht
  | anonymous =>
    cases hg : r.guarded with
    | true => simpa [handleRequest, hg] using ht
    | false =>
      have hreq : handleRequest t .anonymous r = handleCore t .anonymous r := by
        simp [handleRequest, hg]
      rw [hreq]
      exact handleCore_preserves_hashed t _ r ht

/-! ## The claims -/

/-- C1: a guarded request from an Anonymous identity does not execute the
wrapped operation (store and identity are unchanged) and yields a 302
redirect to `/login?next=<original-path>` with the path URL-encoded; in
particular `GET /create_book` redirects to `/login?next=%2Fcreate_book`. -/
theorem anonymous_guard_redirect (s : AppState) (r : Request)
    (h : r.guarded = true) :
    handleRequest s .anonymous r =
      ⟨s, .anonymous, .redirect 302 ("/login?next=" ++ urlEncode r.path)⟩ ∧
    handleRequest s .anonymous .getCreateBook =
      ⟨s, .anonymous, .redirect 302 "/login?next=%2Fcreate_book"⟩ := by
  constructor
  · unfold handleRequest
    rw [h]
    rfl
  · rfl

theorem anonymous_guard_redirect_witness :
    Request.guarded .getCreateBook = true ∧
    (handleRequest emptyState .anonymous .getCreateBook =
      ⟨emptyState, .anonymous,
        .redirect 302 ("/login?next=" ++ urlEncode (Request.path .getCreateBook))⟩ ∧
    handleRequest emptyState .anonymous .getCreateBook =
      ⟨emptyState, .anonymous, .redirect 302 "/login?next=%2Fcreate_book"⟩) :=
  ⟨rfl, anonymous_guard_redirect emptyState .getCreateBook rfl⟩

/-- C6: checking a hash produced by the Credential Service succeeds exactly
on the plaintext originally hashed, and on a mismatch it returns false
rather than failing. -/
theorem verify_iff_plaintext_matches (salt : Nat) (p q : String) :
    (check_password_hash (generate_password_hash salt p) q = true ↔ q = p) ∧
    (q ≠ p → check_password_hash (generate_password_hash salt p) q = false) := by
  refine ⟨check_generate salt p q, fun hne => ?_⟩
  cases hc : check_password_hash (generate_password_hash salt p) q
  · rfl
  · exact absurd ((check_generate salt p q).1 hc) hne

theorem verify_iff_plaintext_matches_witness :
    ("wrong" : String) ≠ "password" ∧
    check_password_hash (generate_password_hash 0 "password") "wrong" = false :=
  ⟨by decide, (verify_iff_plaintext_matches 0 "password" "wrong").2 (by decide)⟩

/-- C8: signup never changes the session identity — in particular a signup
issued while Anonymous leaves the identity Anonymous (the new user is not
automatically logged in). -/
theorem signup_does_not_log_in (s : AppState) (ident : Identity)
    (u p : String) (salt : Nat) :
    (handleRequest s ident (.postSignup u p salt)).ident = ident := by
  cases ident <;>
    cases h : signup s u p salt <;>
      simp [handleRequest, handleCore, Request.guarded, h]

/-- C9: `load_user` only accepts decimal-integer session identifiers — a
string `int()` cannot parse makes it raise (a `ValueError`, not a `None`
return), while a parseable identifier matching no user yields `None`. -/
theorem load_user_int_parsing (s : AppState) (str : String) :
    (pyInt? str = none → load_user s str = .error "ValueError") ∧
    (∀ n : Int, pyInt? str = some n → (∀ u ∈ s.users, (u.id : Int) ≠ n) →
      load_user s str = .ok none) := by
  constructor
  · intro h
    unfold load_user
    rw [h]
  · intro n h hn
    unfold load_user
    rw [h]
    by_cases hneg : n < 0
    · simp [hneg]
    · have hfind : findUserById s n.toNat = none := by
        unfold findUserById
        rw [List.find?_eq_none]
        intro u hu
        simp only [beq_iff_eq]
        intro he
        apply hn u hu
        rw [he]
        exact Int.toNat_of_nonneg (not_lt.mp hneg)
      simp [hneg, hfind]

theorem load_user_int_parsing_witness :
    (pyInt? "abc" = none ∧ load_user emptyState "abc" = .error "ValueError") ∧
    (pyInt? "42" = some 42 ∧ load_user emptyState "42" = .ok none) :=
  ⟨⟨by decide, (load_user_int_parsing emptyState "abc").1 (by decide)⟩,
   ⟨by decide, (load_user_int_parsing emptyState "42").2 42 (by decide)
      (by intro u hu; simp [emptyState] at hu)⟩⟩

/-- C10: a session cookie signed under one process's secret validates under
that secret but reads as Anonymous under the distinct secret a restarted
process draws: authenticated sessions do not survive a restart. -/
theorem restart_invalidates_sessions (secret secret' uid : Nat)
    (h : secret' ≠ secret) :
    readCookie secret (issueCookie secret uid) = .authenticated uid ∧
    readCookie secret' (issueCookie secret uid) = .anonymous := by
  constructor
  · simp [readCookie, issueCookie]
  · unfold readCookie issueCookie signSession
    simp only [beq_iff_eq]
    rw [if_neg]
    intro he
    exact h (Nat.pair_eq_pair.mp he.symm).1

theorem restart_invalidates_sessions_witness :
    (1 : Nat) ≠ 0 ∧
    (readCookie 0 (issueCookie 0 5) = .authenticated 5 ∧
     readCookie 1 (issueCookie 0 5) = .anonymous) :=
  ⟨by decide, restart_invalidates_sessions 0 1 5 (by decide)⟩

/-- C2: the login state machine — a non-existent username fails with
`UserNotFoundError` ("User does not exist") leaving the identity Anonymous;
a wrong password fails with `IncorrectPasswordError` ("Password incorrect")
leaving the identity Anonymous; correct credentials transition the identity
to Authenticated(user), and Authenticated persists across subsequent
requests of the session (any request other than login/logout, the user
still resolving). -/
theorem login_transitions (s : AppState) (u p : String) (nx : Option String) :
    (findUserByName s u = none →
      handleRequest s .anonymous (.postLogin u p nx) =
        ⟨s, .anonymous, .page (some "User does not exist")⟩) ∧
    (∀ usr, findUserByName s u = some usr →
      check_password_hash usr.password p = false →
      handleRequest s .anonymous (.postLogin u p nx) =
        ⟨s, .anonymous, .page (some "Password incorrect")⟩) ∧
    (∀ usr, findUserByName s u = some usr →
      check_password_hash usr.password p = true →
      (handleRequest s .anonymous (.postLogin u p nx)).ident =
        .authenticated usr.id) ∧
    (∀ (uid : Nat) (r : Request), findUserById s uid ≠ none →
      (∀ v q nx', r ≠ .postLogin v q nx') → r ≠ .getLogout →
      (step s (.authenticated uid) r).ident = .authenticated uid) := by
  refine ⟨?_, ?_, ?_, ?_⟩
  · intro h
    simp [handleRequest, handleCore, Request.guarded, login, h, AuthError.message]
  · intro usr h hc
    simp [handleRequest, handleCore, Request.guarded, login, h, hc, AuthError.message]
  · intro usr h hc
    simp [handleRequest, handleCore, Request.guarded, login, h, hc]
  · intro uid r huid hl ho
    have hres : resolveIdentity s (.authenticated uid) = .authenticated uid := by
      cases hf : findUserById s uid with
      | none => exact absurd hf huid
      | some usr => simp [resolveIdentity, hf]
    unfold step
    rw [hres]
    have hreq : handleRequest s (.authenticated uid) r =
        handleCore s (.authenticated uid) r := rfl
    rw [hreq]
    exact handleCore_ident_fixed s (.authenticated uid) r hl ho

theorem login_transitions_witness :
    (findUserByName stateMe1 "ghost" = none ∧
      handleRequest stateMe1 .anonymous (.postLogin "ghost" "pw" none) =
        ⟨stateMe1, .anonymous, .page (some "User does not exist")⟩) ∧
    (findUserByName stateMe1 "me1" = some me1 ∧
      check_password_hash me1.password "wrong" = false ∧
      handleRequest stateMe1 .anonymous (.postLogin "me1" "wrong" none) =
        ⟨stateMe1, .anonymous, .page (some "Password incorrect")⟩) ∧
    (check_password_hash me1.password "password" = true ∧
      (handleRequest stateMe1 .anonymous (.postLogin "me1" "password" none)).ident =
        .authenticated me1.id) ∧
    (step stateMe1 (.authenticated 1) .getHome).ident = .authenticated 1 :=
  ⟨⟨by decide, (login_transitions stateMe1 "ghost" "pw" none).1 (by decide)⟩,
   ⟨by decide, by decide,
     (login_transitions stateMe1 "me1" "wrong" none).2.1 me1 (by decide) (by decide)⟩,
   ⟨by decide,
     (login_transitions stateMe1 "me1" "password" none).2.2.1 me1 (by decide) (by decide)⟩,
   (login_transitions stateMe1 "x" "y" none).2.2.2 1 .getHome (by decide)
     (fun v q nx' => by simp) (by simp)⟩

/-- C3: signing up a username not yet present succeeds, and a second signup
with the same username fails with `DuplicateUsernameError` ("that username
is taken") leaving the store unchanged, so exactly one user with that
username exists afterwards; and signup's uniqueness check is a
case-sensitive exact string match on the stored usernames. -/
theorem signup_duplicate_rejected (s : AppState) (ident : Identity)
    (u p p' : String) (salt salt' : Nat)
    (h : findUserByName s u = none) :
    (handleRequest s ident (.postSignup u p salt)).response =
      .redirect 302 "/login" ∧
    handleRequest (handleRequest s ident (.postSignup u p salt)).state ident
        (.postSignup u p' salt') =
      ⟨(handleRequest s ident (.postSignup u p salt)).state, ident,
        .page (some "that username is taken")⟩ ∧
    ((handleRequest s ident (.postSignup u p salt)).state.users.filter
        (fun x => x.username == u)).length = 1 ∧
    (∀ v q saltv, signup s v q saltv = .error .duplicateUsername ↔
      ∃ x ∈ s.users, x.username = v) := by
  have hsign : signup s u p salt =
      .ok { s with
        users := s.users ++
          [⟨s.nextUserId, u, generate_password_hash salt p, []⟩],
        nextUserId := s.nextUserId + 1 } := by
    unfold signup
    rw [h]
    rfl
  have h1 : handleRequest s ident (.postSignup u p salt) =
      ⟨{ s with
          users := s.users ++
            [⟨s.nextUserId, u, generate_password_hash salt p, []⟩],
          nextUserId := s.nextUserId + 1 }, ident, .redirect 302 "/login"⟩ := by
    cases ident <;> simp [handleRequest, handleCore, Request.guarded, hsign]
  have hnone : s.users.find? (fun x => x.username == u) = none := h
  have hfind2 : findUserByName
      ({ s with
          users := s.users ++
            [⟨s.nextUserId, u, generate_password_hash salt p, []⟩],
          nextUserId := s.nextUserId + 1 } : AppState) u =
      some ⟨s.nextUserId, u, generate_password_hash salt p, []⟩ := by
    unfold findUserByName
    simp [List.find?_append, hnone]
  have hsign2 : signup
      ({ s with
          users := s.users ++
            [⟨s.nextUserId, u, generate_password_hash salt p, []⟩],
          nextUserId := s.nextUserId + 1 } : AppState) u p' salt' =
      .error .duplicateUsername := by
    unfold signup
    rw [hfind2]
    rfl
  refine ⟨?_, ?_, ?_, ?_⟩
  · rw [h1]
  · rw [h1]
    cases ident <;>
      simp [handleRequest, handleCore, Request.guarded, hsign2, AuthError.message]
  · rw [h1]
    have hfilter : s.users.filter (fun x => x.username == u) = [] := by
      rw [List.filter_eq_nil_iff]
      intro a ha
      exact List.find?_eq_none.mp hnone a ha
    simp [List.filter_append, hfilter]
  · intro v q saltv
    constructor
    · intro he
      by_cases hs : (findUserByName s v).isSome
      · obtain ⟨x, hx, hpx⟩ := List.find?_isSome.mp hs
        exact ⟨x, hx, by simpa using hpx⟩
      · unfold signup at he
        rw [if_neg hs] at he
        exact absurd he (by simp)
    · rintro ⟨x, hx, hxv⟩
      have hs : (findUserByName s v).isSome := by
        unfold findUserByName
        rw [List.find?_isSome]
        exact ⟨x, hx, by simp [hxv]⟩
      unfold signup
      rw [if_pos hs]

theorem signup_duplicate_rejected_witness :
    findUserByName emptyState "alice" = none ∧
    ((handleRequest emptyState .anonymous (.postSignup "alice" "pw1" 0)).response =
        .redirect 302 "/login" ∧
      handleRequest
          (handleRequest emptyState .anonymous (.postSignup "alice" "pw1" 0)).state
          .anonymous (.postSignup "alice" "pw2" 1) =
        ⟨(handleRequest emptyState .anonymous (.postSignup "alice" "pw1" 0)).state,
          .anonymous, .page (some "that username is taken")⟩ ∧
      ((handleRequest emptyState .anonymous
          (.postSignup "alice" "pw1" 0)).state.users.filter
          (fun x => x.username == "alice")).length = 1 ∧
      (∀ v q saltv, signup emptyState v q saltv = .error .duplicateUsername ↔
        ∃ x ∈ emptyState.users, x.username = v)) :=
  ⟨by decide,
   signup_duplicate_rejected emptyState .anonymous "alice" "pw1" "pw2" 0 1 (by decide)⟩

/-- C4: with an authenticated user and an existing book, favoriting twice
is the same as favoriting once and leaves exactly one favorite entry for
the (user, book) pair; unfavoriting afterwards removes the book from the
user's favorites; and unfavoriting a book that is not currently favorited
is a no-op — no error response and no state change. -/
theorem favorite_unfavorite_idempotent (s : AppState) (uid bid : Nat)
    (hb : s.books.any (fun b => b.id == bid) = true)
    (hfresh : ∀ u ∈ s.users, u.id = uid → bid ∉ u.favorite_books) :
    ((handleRequest
        ((handleRequest s (.authenticated uid) (.postFavorite bid)).state)
        (.authenticated uid) (.postFavorite bid)).state =
      (handleRequest s (.authenticated uid) (.postFavorite bid)).state) ∧
    (∀ u ∈ (handleRequest s (.authenticated uid) (.postFavorite bid)).state.users,
      u.id = uid → u.favorite_books.count bid = 1) ∧
    (∀ u ∈ (handleRequest
        ((handleRequest s (.authenticated uid) (.postFavorite bid)).state)
        (.authenticated uid) (.postUnfavorite bid)).state.users,
      u.id = uid → bid ∉ u.favorite_books) ∧
    (∀ t : AppState, (∀ u ∈ t.users, u.id = uid → bid ∉ u.favorite_books) →
      handleRequest t (.authenticated uid) (.postUnfavorite bid) =
        ⟨t, .authenticated uid, .redirect 302 ("/book/" ++ toString bid)⟩) := by
  have h1 : handleRequest s (.authenticated uid) (.postFavorite bid) =
      ⟨{ s with users := s.users.map (favUpd uid bid) }, .authenticated uid,
        .redirect 302 ("/book/" ++ toString bid)⟩ := by
    have hreq : handleRequest s (.authenticated uid) (.postFavorite bid) =
        handleCore s (.authenticated uid) (.postFavorite bid) := rfl
    rw [hreq]
    simp [handleCore, favoriteBook_eq_map s uid bid hb]
  have hb1 : ({ s with users := s.users.map (favUpd uid bid) } :
      AppState).books.any (fun b => b.id == bid) = true := hb
  have h2 : handleRequest ({ s with users := s.users.map (favUpd uid bid) } :
        AppState) (.authenticated uid) (.postFavorite bid) =
      ⟨{ s with users := (s.users.map (favUpd uid bid)).map (favUpd uid bid) },
        .authenticated uid, .redirect 302 ("/book/" ++ toString bid)⟩ := by
    have hreq : handleRequest ({ s with users := s.users.map (favUpd uid bid) } :
          AppState) (.authenticated uid) (.postFavorite bid) =
        handleCore ({ s with users := s.users.map (favUpd uid bid) } : AppState)
          (.authenticated uid) (.postFavorite bid) := rfl
    rw [hreq]
    simp [handleCore, favoriteBook_eq_map _ uid bid hb1]
  have hmapidem : (s.users.map (favUpd uid bid)).map (favUpd uid bid) =
      s.users.map (favUpd uid bid) := by
    rw [List.map_map]
    exact List.map_congr_left (fun u _ => favUpd_idem uid bid u)
  refine ⟨?_, ?_, ?_, ?_⟩
  · rw [h1]
    simp only [h2, hmapidem]
  · rw [h1]
    intro u' hu' hid
    simp only at hu'
    obtain ⟨u, hu, rfl⟩ := List.mem_map.mp hu'
    unfold favUpd at hid ⊢
    by_cases hbe : u.id == uid
    · rw [if_pos hbe] at hid ⊢
      have hmem : bid ∉ u.favorite_books := hfresh u hu (by simpa using hbe)
      have hc : u.favorite_books.contains bid = false := by
        simpa using hmem
      rw [hc]
      simp only [Bool.false_eq_true, if_false]
      rw [List.count_append]
      rw [List.count_eq_zero_of_not_mem hmem]
      simp
    · rw [if_neg hbe] at hid
      exact absurd (by simpa using hid) (fun he => hbe (by simp [he]))
  · rw [h1]
    intro u' hu' hid
    have hreq : handleRequest ({ s with users := s.users.map (favUpd uid bid) } :
          AppState) (.authenticated uid) (.postUnfavorite bid) =
        handleCore ({ s with users := s.users.map (favUpd uid bid) } : AppState)
          (.authenticated uid) (.postUnfavorite bid) := rfl
    rw [hreq] at hu'
    simp only [handleCore, unfavoriteBook] at hu'
    obtain ⟨w, hw, rfl⟩ := List.mem_map.mp hu'
    unfold unfavUpd at hid ⊢
    by_cases hbe : w.id == uid
    · rw [if_pos hbe] at hid ⊢
      intro hmem
      simp only [List.mem_filter] at hmem
      simpa using hmem.2
    · rw [if_neg hbe] at hid
      exact absurd (by simpa using hid) (fun he => hbe (by simp [he]))
  · intro t ht
    have hreq : handleRequest t (.authenticated uid) (.postUnfavorite bid) =
        handleCore t (.authenticated uid) (.postUnfavorite bid) := rfl
    rw [hreq]
    have hnoop : unfavoriteBook t uid bid = t := by
      unfold unfavoriteBook
      have hmap : t.users.map (unfavUpd uid bid) = t.users := by
        have := List.map_congr_left (l := t.users) (g := id)
          (f := unfavUpd uid bid)
          (fun u hu => by
            unfold unfavUpd
            by_cases hbe : u.id == uid
            · rw [if_pos hbe]
              have hmem : bid ∉ u.favorite_books := ht u hu (by simpa using hbe)
              have hfil : u.favorite_books.filter (fun b => b ≠ bid) =
                  u.favorite_books := by
                rw [List.filter_eq_self]
                intro a ha
                have hane : a ≠ bid := fun he => hmem (he ▸ ha)
                simpa using hane
              rw [hfil]
              rfl
            · rw [if_neg hbe]
              rfl)
        simpa using this
      rw [hmap]
    simp only [handleCore, hnoop]

theorem favorite_unfavorite_idempotent_witness :
    (favState.books.any (fun b => b.id == 1) = true) ∧
    (∀ u ∈ favState.users, u.id = 1 → 1 ∉ u.favorite_books) ∧
    ((handleRequest
        ((handleRequest favState (.authenticated 1) (.postFavorite 1)).state)
        (.authenticated 1) (.postFavorite 1)).state =
      (handleRequest favState (.authenticated 1) (.postFavorite 1)).state) ∧
    handleRequest stateMe1 (.authenticated 1) (.postUnfavorite 1) =
      ⟨stateMe1, .authenticated 1, .redirect 302 ("/book/" ++ toString 1)⟩ :=
  ⟨by decide, by decide,
   (favorite_unfavorite_idempotent favState 1 1 (by decide) (by decide)).1,
   (favorite_unfavorite_idempotent favState 1 1 (by decide) (by decide)).2.2.2
     stateMe1 (by decide)⟩

/-- C7: updating book id 1 as an authenticated user with title
"Tequila Mockingbird", publish date 1960-07-12 and audience CHILDREN
persists exactly those values on that book (every mutable field replaced in
the one update), while every other book, the other tables and the identity
are unchanged. -/
theorem update_book_fields (s : AppState) (uid : Nat)
    (hb : s.books.any (fun b => b.id == 1) = true) :
    (∀ b ∈ (handleRequest s (.authenticated uid)
        (.postUpdateBook 1 updateForm)).state.books,
      b.id = 1 →
        b = ⟨1, "Tequila Mockingbird", some ⟨1960, 7, 12⟩, some 1, [],
              .CHILDREN⟩) ∧
    (∃ b ∈ (handleRequest s (.authenticated uid)
        (.postUpdateBook 1 updateForm)).state.books,
      b = ⟨1, "Tequila Mockingbird", some ⟨1960, 7, 12⟩, some 1, [],
            .CHILDREN⟩) ∧
    (∀ b ∈ s.books, b.id ≠ 1 →
      b ∈ (handleRequest s (.authenticated uid)
        (.postUpdateBook 1 updateForm)).state.books) ∧
    (handleRequest s (.authenticated uid)
        (.postUpdateBook 1 updateForm)).state.books.length = s.books.length ∧
    (handleRequest s (.authenticated uid)
        (.postUpdateBook 1 updateForm)).state.users = s.users ∧
    (handleRequest s (.authenticated uid)
        (.postUpdateBook 1 updateForm)).state.authors = s.authors ∧
    (handleRequest s (.authenticated uid)
        (.postUpdateBook 1 updateForm)).state.genres = s.genres ∧
    (handleRequest s (.authenticated uid)
        (.postUpdateBook 1 updateForm)).ident = .authenticated uid := by
  have h1 : handleRequest s (.authenticated uid) (.postUpdateBook 1 updateForm) =
      ⟨{ s with books := s.books.map (bookUpd updateForm 1) },
        .authenticated uid, .redirect 302 ("/book/" ++ toString 1)⟩ := by
    have hreq : handleRequest s (.authenticated uid)
        (.postUpdateBook 1 updateForm) =
        handleCore s (.authenticated uid) (.postUpdateBook 1 updateForm) := rfl
    rw [hreq]
    simp [handleCore, updateBook_eq_map s 1 updateForm hb]
  have hall : ∀ b ∈ (handleRequest s (.authenticated uid)
      (.postUpdateBook 1 updateForm)).state.books,
      b.id = 1 →
        b = ⟨1, "Tequila Mockingbird", some ⟨1960, 7, 12⟩, some 1, [],
              .CHILDREN⟩ := by
    rw [h1]
    intro b' hb' hid
    simp only at hb'
    obtain ⟨b, hbm, rfl⟩ := List.mem_map.mp hb'
    unfold bookUpd at hid ⊢
    by_cases hbe : b.id == 1
    · rw [if_pos hbe] at hid ⊢
      have hbid : b.id = 1 := by simpa using hbe
      simp [updateForm, hbid]
    · rw [if_neg hbe] at hid
      exact absurd (by simpa using hid) (fun he => hbe (by simp [he]))
  refine ⟨hall, ?_, ?_, ?_, ?_, ?_, ?_, ?_⟩
  · obtain ⟨b0, hb0, hpb⟩ := List.any_eq_true.mp hb
    refine ⟨bookUpd updateForm 1 b0, ?_, ?_⟩
    · rw [h1]
      exact List.mem_map_of_mem _ hb0
    · apply hall
      · rw [h1]
        exact List.mem_map_of_mem _ hb0
      · unfold bookUpd
        rw [if_pos hpb]
        simpa using hpb
  · intro b hbm hne
    rw [h1]
    have hfix : bookUpd updateForm 1 b = b := by
      unfold bookUpd
      rw [if_neg (by simpa using hne)]
    exact List.mem_map.mpr ⟨b, hbm, hfix⟩
  · rw [h1]
    simp
  · rw [h1]
  · rw [h1]
  · rw [h1]
  · rw [h1]

theorem update_book_fields_witness :
    (favState.books.any (fun b => b.id == 1) = true) ∧
    (∃ b ∈ (handleRequest favState (.authenticated 1)
        (.postUpdateBook 1 updateForm)).state.books,
      b = ⟨1, "Tequila Mockingbird", some ⟨1960, 7, 12⟩, some 1, [],
            .CHILDREN⟩) ∧
    (handleRequest favState (.authenticated 1)
        (.postUpdateBook 1 updateForm)).state.users = favState.users :=
  ⟨by decide,
   (update_book_fields favState 1 (by decide)).2.1,
   (update_book_fields favState 1 (by decide)).2.2.2.2.1⟩

/-- C5: signup with a fresh username creates a user whose stored password
is the Credential Service hash of the submitted password — never the
plaintext itself — and the "password field never holds plaintext" invariant
is preserved by every request. -/
theorem signup_password_hashed (s : AppState) (ident : Identity)
    (u p : String) (salt : Nat) (h : findUserByName s u = none) :
    (∃ usr ∈ (handleRequest s ident (.postSignup u p salt)).state.users,
      usr.username = u ∧ usr.password = generate_password_hash salt p ∧
      usr.password ≠ p) ∧
    (∀ (t : AppState) (ident' : Identity) (r : Request),
      PasswordsHashed t.users →
      PasswordsHashed (handleRequest t ident' r).state.users) := by
  constructor
  · have hsign : signup s u p salt =
        .ok { s with
          users := s.users ++
            [⟨s.nextUserId, u, generate_password_hash salt p, []⟩],
          nextUserId := s.nextUserId + 1 } := by
      unfold signup
      rw [h]
      rfl
    have h1 : handleRequest s ident (.postSignup u p salt) =
        ⟨{ s with
            users := s.users ++
              [⟨s.nextUserId, u, generate_password_hash salt p, []⟩],
            nextUserId := s.nextUserId + 1 }, ident,
          .redirect 302 "/login"⟩ := by
      cases ident <;> simp [handleRequest, handleCore, Request.guarded, hsign]
    rw [h1]
    exact ⟨⟨s.nextUserId, u, generate_password_hash salt p, []⟩, by simp,
      rfl, rfl, generate_ne_plaintext salt p⟩
  · intro t ident' r ht
    exact handleRequest_preserves_hashed t ident' r ht

theorem signup_password_hashed_witness :
    findUserByName emptyState "bob" = none ∧
    (∃ usr ∈ (handleRequest emptyState .anonymous
        (.postSignup "bob" "hunter2" 3)).state.users,
      usr.username = "bob" ∧
      usr.password = generate_password_hash 3 "hunter2" ∧
      usr.password ≠ "hunter2") :=
  ⟨by decide,
   (signup_password_hashed emptyState .anonymous "bob" "hunter2" 3 (by decide)).1⟩

end BooksApp
